import Mathlib

/-!
Verification development for the `pyotodom` scraper (`otodom/utils.py`,
`otodom/offer.py`, `otodom/category.py`).

Python values are shallowly embedded: Python `float` is modelled by `ℚ`
(every numeric literal occurring in the claims — `0.0`, `-1.0`, `1234.50` —
is exactly representable in both), fallible Python code is modelled with
`Except PyErr`, and the external collaborators (HTTP fetch, BeautifulSoup)
are modelled by explicit structures carrying exactly the queries the source
performs on them.
-/

namespace Pyotodom

/-- The Python exception classes that the modelled code can raise. -/
inductive PyErr where
  | attributeError
  | keyError
  | indexError
  | typeError
  deriving DecidableEq, Repr

instance {ε α : Type} [DecidableEq ε] [DecidableEq α] :
    DecidableEq (Except ε α) := fun a b =>
  match a, b with
  | .error e, .error f =>
    if h : e = f then isTrue (by rw [h])
    else isFalse (fun hh => h (Except.error.inj hh))
  | .error _, .ok _ => isFalse (fun hh => Except.noConfusion hh)
  | .ok _, .error _ => isFalse (fun hh => Except.noConfusion hh)
  | .ok x, .ok y =>
    if h : x = y then isTrue (by rw [h])
    else isFalse (fun hh => h (Except.ok.inj hh))

/-- A Python value that is either a string or a number (modelled by `ℚ`). -/
inductive StrOrNum where
  | str (s : String)
  | num (q : ℚ)
  deriving DecidableEq, Repr

/-- Python truthiness for a string-or-number value: the empty string and
`0` are falsy, everything else is truthy. -/
def StrOrNum.truthy : StrOrNum → Bool
  | .str s => !s.isEmpty
  | .num q => q != 0

/-- Python's `str.isascii` for a one-character string. -/
def pyIsascii (c : Char) : Bool := c.toNat ≤ 127

/-- Python's `str.isdigit` for a one-character string, modelled on the ASCII
decimal digits.  (Python's `isdigit` also accepts some non-ASCII digit
characters; in `price_to_float` it is conjoined with `isascii`, under which
the two predicates agree, and no theorem below feeds a non-ASCII digit to a
bare `isdigit` call.) -/
def pyIsdigit (c : Char) : Bool := '0' ≤ c && c ≤ '9'

/-- Split a character list at every character satisfying `p` (Python's
`str.split(sep)` for a one-character separator, keeping empty parts). -/
def splitOnPred (p : Char → Bool) : List Char → List (List Char)
  | [] => [[]]
  | c :: cs =>
    match splitOnPred p cs with
    | [] => [[]]
    | h :: t => if p c then [] :: h :: t else (c :: h) :: t

/-- Python's `s.split(sep)` for a one-character separator. -/
def pySplit (s : String) (sep : Char) : List String :=
  (splitOnPred (fun c => c == sep) s.toList).map String.mk

/-- Python's whitespace `s.split()`: split on whitespace runs, dropping
empty parts. -/
def pySplitWhitespace (s : String) : List String :=
  ((splitOnPred Char.isWhitespace s.toList).map String.mk).filter
    (fun part => !part.isEmpty)

/-- The natural number denoted by a list of ASCII decimal digits
(most significant first); `0` for the empty list. -/
def natOfDigits (cs : List Char) : Nat :=
  cs.foldl (fun a c => 10 * a + (c.toNat - 48)) 0

/-- The unsigned-decimal fragment of Python's `float(str)` grammar:
digit characters with at most one `.` and at least one digit.  Returns
`none` exactly where `float()` raises `ValueError`, and otherwise the
integer-part value, fraction-part value and fraction length.  (The full
grammar also allows surrounding whitespace, an exponent, underscores,
`inf` and `nan`; none of those characters survive this repository's
character filtering, so they never reach this parser in the theorems
below.) -/
def parseUnsignedParts (cs : List Char) : Option (Nat × Nat × Nat) :=
  if cs.all (fun c => pyIsdigit c || c == '.') then
    match splitOnPred (fun c => c == '.') cs with
    | [ip] =>
      if ip.isEmpty then none else some (natOfDigits ip, 0, 0)
    | [ip, fp] =>
      if ip.isEmpty && fp.isEmpty then none
      else some (natOfDigits ip, natOfDigits fp, fp.length)
    | _ => none
  else none

/-- Python's built-in `float(str)`, syntactic layer: an optional sign
followed by an unsigned decimal.  The `Bool` records a leading minus. -/
def pyFloatParts (s : String) : Option (Bool × Nat × Nat × Nat) :=
  match s.toList with
  | '-' :: rest => (parseUnsignedParts rest).map (fun p => (true, p))
  | '+' :: rest => (parseUnsignedParts rest).map (fun p => (false, p))
  | cs => (parseUnsignedParts cs).map (fun p => (false, p))

/-- The rational value denoted by a parsed sign/integer/fraction tuple. -/
def partsValue : Bool × Nat × Nat × Nat → ℚ
  | (sgn, ip, fp, fl) =>
    let v : ℚ := (ip : ℚ) + (fp : ℚ) / (10 ^ fl : ℚ)
    if sgn then -v else v

/-- Python's built-in `float(str)`: `none` where `float()` raises
`ValueError`, otherwise the denoted value. -/
def pyFloatOfString (s : String) : Option ℚ :=
  (pyFloatParts s).map partsValue

/-- Python's `s.replace(",", ".")`: for one-character patterns the
substring replacement is a character map. -/
def pyReplaceCommaDot (s : String) : String :=
  String.mk (s.toList.map (fun c => if c == ',' then '.' else c))

/-- Model of `utils.get_number_from_string`: apply `number_type` to the input with
commas replaced by dots; a `ValueError` (modelled by `none`) yields the
default. -/
def get_number_from_string (s : String) (number_type : String → Option ℚ)
    (default : ℚ) : ℚ :=
  match number_type (pyReplaceCommaDot s) with
  | some q => q
  | none => default

/-- Model of `utils._float` (the `float` instantiation of `get_number_from_string`).
The source's default argument is `None`; every call modelled here passes an
explicit numeric default. -/
def _float (number : String) (default : ℚ) : ℚ :=
  get_number_from_string number pyFloatOfString default

/-- The character filter of `utils.price_to_float`: keep only ASCII digits,
commas and dots (`d.isdigit() and d.isascii() or d in [",", "."]` — `and`
binds tighter than `or`). -/
def priceFiltered (price : String) : String :=
  String.mk (price.toList.filter
    (fun d => (pyIsdigit d && pyIsascii d) || d == ',' || d == '.'))

/-- Model of `utils.price_to_float`: filter the characters, then parse as a float
with default `0.0`. -/
def price_to_float (price : String) : ℚ :=
  _float (priceFiltered price) 0

/-- The number `price_to_float` extracts from its input before defaulting:
`none` exactly when the underlying `float()` call raises `ValueError`. -/
def extractedNumber (price : String) : Option ℚ :=
  pyFloatOfString (pyReplaceCommaDot (priceFiltered price))

/-! Part: URL building (`utils.get_url`, `utils.get_json_url`) -/

/-- Modelled from the spec: the package root module (not under `src/`)
defines the site base URL used as the `{base}` prefix of every built URL;
its exact value decides none of the claims. -/
def BASE_URL : String := "https://www.otodom.pl"

/-- The UTF-8 encoding of one character, as byte values. -/
def utf8Bytes (c : Char) : List Nat :=
  let n := c.toNat
  if n < 128 then [n]
  else if n < 2048 then [192 + n / 64, 128 + n % 64]
  else if n < 65536 then [224 + n / 4096, 128 + (n / 64) % 64, 128 + n % 64]
  else [240 + n / 262144, 128 + (n / 4096) % 64, 128 + (n / 64) % 64,
        128 + n % 64]

/-- Upper-case hexadecimal digit for a value below 16. -/
def hexDigitChar (n : Nat) : Char :=
  if n < 10 then Char.ofNat (48 + n) else Char.ofNat (55 + n)

/-- Model of `%XX` escape of one byte, as produced by `urllib.parse.quote`. -/
def percentByte (b : Nat) : String :=
  String.mk ['%', hexDigitChar (b / 16), hexDigitChar (b % 16)]

/-- The characters `urllib.parse.quote` leaves unescaped with its default
`safe="/"`: ASCII letters and digits, `_ . - ~`, and `/`. -/
def quoteSafe (c : Char) : Bool :=
  ('A' ≤ c && c ≤ 'Z') || ('a' ≤ c && c ≤ 'z') || ('0' ≤ c && c ≤ '9') ||
    c == '_' || c == '.' || c == '-' || c == '~' || c == '/'

/-- Model of `urllib.parse.quote` with its default arguments: safe characters pass
through, every other character is `%XX`-escaped byte by byte (UTF-8). -/
def quote (s : String) : String :=
  String.join (s.toList.map (fun c =>
    if quoteSafe c then String.mk [c]
    else String.join ((utf8Bytes c).map percentByte)))

/-- A value of the `filters` keyword mapping: a Python list of strings, or
a scalar (serialized through `str()`, modelled by the resulting string). -/
inductive FilterVal where
  | scalar (s : String)
  | seq (vs : List String)
  deriving DecidableEq, Repr

/-- The slice of the resolved region dictionary that `get_url` and
`get_json_url` read: the slash-delimited path id and the optional
`districtId`/`streetId` entries (their `str()` images). -/
structure RegionData where
  id : String
  districtId : Option String
  streetId : Option String
  deriving DecidableEq, Repr

/-- Python dict assignment `m[k] = v` on an insertion-ordered mapping:
overwrite in place if the key exists, else append. -/
def dictSet (m : List (String × FilterVal)) (k : String) (v : FilterVal) :
    List (String × FilterVal) :=
  if m.any (fun p => p.1 == k) then
    m.map (fun p => if p.1 == k then (k, v) else p)
  else m ++ [(k, v)]

/-- Python dict lookup `m[k]` / `k in m` on an insertion-ordered mapping. -/
def dictFind (m : List (String × FilterVal)) (k : String) : Option FilterVal :=
  (m.find? (fun p => p.1 == k)).map (fun p => p.2)

/-- One entry of `get_url`'s query string (`utils.py` lines 150-155): a
list value is serialized as `key=[v1,v2,...]` with the key taken verbatim;
a scalar as `quote(key)=value`. -/
def filter_entry : String × FilterVal → String
  | (key, .seq vs) => key ++ "=[" ++ String.intercalate "," vs ++ "]"
  | (key, .scalar v) => quote key ++ "=" ++ v

/-- Model of `utils.get_url`.  The `limit` and `page` parameters are interpolated as
strings.  A list-valued `building_type` would raise `TypeError` (string
concatenation with a list) and a list-valued `description_fragment` an
`AttributeError` (`list` has no `split`), as in the source. -/
def get_url (main_category detail_category : String)
    (region_data : RegionData) (limit page : String)
    (filters0 : List (String × FilterVal)) : Except PyErr String := do
  let filters1 := match region_data.districtId with
    | some d => dictSet filters0 "districtId" (.scalar d)
    | none => filters0
  let filters := match region_data.streetId with
    | some s => dictSet filters1 "streetId" (.scalar s)
    | none => filters1
  let url := BASE_URL ++ "/" ++ "pl" ++ "/" ++ "oferty" ++ "/" ++
    main_category ++ "/" ++ detail_category ++ "/" ++ region_data.id
  let url ← match dictFind filters "building_type" with
    | none => Except.ok url
    | some (.scalar s) => Except.ok (url ++ "/" ++ s)
    | some (.seq _) => Except.error PyErr.typeError
  let url ← match dictFind filters "description_fragment" with
    | none => Except.ok url
    | some (.scalar s) =>
        Except.ok (url ++ "/q-" ++ String.intercalate "-" (pySplitWhitespace s))
    | some (.seq _) => Except.error PyErr.attributeError
  let filter_list := filters.map filter_entry
  Except.ok (url ++ "?limit=" ++ limit ++ "&page=" ++ page ++ "&" ++
    String.intercalate "&" filter_list)

/-- The result of BeautifulSoup's
`find("script", {"src": re.compile(r"buildManifest\.js")})` on the
lightweight page `_get_json_identifier` fetches: `none` when no matching
script tag exists, otherwise the tag with its optional `src` attribute. -/
structure ManifestMarkup where
  buildManifestScript : Option (Option String)
  deriving DecidableEq, Repr

/-- Model of `utils._get_json_identifier`, given the fetched page content (the
network fetch is external).  `script.attrs["src"].split("/")[-2]` inside
`try/except (IndexError, TypeError)`: a missing script tag gives
`None.attrs`, an uncaught `AttributeError`; a script without `src` an
uncaught `KeyError`; a too-short path the caught `IndexError`, hence
`None`. -/
def _get_json_identifier (content : ManifestMarkup) :
    Except PyErr (Option String) :=
  match content.buildManifestScript with
  | none => Except.error PyErr.attributeError
  | some none => Except.error PyErr.keyError
  | some (some src) =>
    let parts := pySplit src '/'
    if h : 2 ≤ parts.length then
      Except.ok (some (parts.get ⟨parts.length - 2, by omega⟩))
    else
      Except.ok none

/-- Model of `utils.get_json_url`, given the fetched lightweight page content.
Returns `none` when the identifier is `None` or empty (`if not
identifier`), otherwise the `/_next/data/{identifier}/...` URL with the
same suffix construction as `get_url`. -/
def get_json_url (main_category detail_category : String)
    (region_data : RegionData) (limit page : String)
    (filters0 : List (String × FilterVal)) (content : ManifestMarkup) :
    Except PyErr (Option String) := do
  let identifier ← _get_json_identifier content
  match identifier with
  | none => Except.ok none
  | some ident =>
    if ident.isEmpty then Except.ok none
    else do
      let url := BASE_URL ++ "/" ++ "_next" ++ "/" ++ "data" ++ "/" ++
        ident ++ "/" ++ "pl" ++ "/" ++ "oferty" ++ "/" ++ main_category ++
        "/" ++ detail_category ++ "/" ++ (region_data.id ++ ".json")
      let url ← match dictFind filters0 "building_type" with
        | none => Except.ok url
        | some (.scalar s) => Except.ok (url ++ "/" ++ s)
        | some (.seq _) => Except.error PyErr.typeError
      let url ← match dictFind filters0 "description_fragment" with
        | none => Except.ok url
        | some (.scalar s) =>
            Except.ok (url ++ "/q-" ++
              String.intercalate "-" (pySplitWhitespace s))
        | some (.seq _) => Except.error PyErr.attributeError
      let filter_list := filters0.map filter_entry
      Except.ok (some (url ++ "?limit=" ++ limit ++ "&page=" ++ page ++
        "&" ++ String.intercalate "&" filter_list))

/-! Part: JSON offer extraction (`offer.parse_json_offer`) -/

/-- A JSON dictionary member as `offer["k"]` sees it: absent key
(`KeyError`), JSON `null` (Python `None`), or a value. -/
inductive JsonField (α : Type) where
  | missing
  | null
  | val (a : α)
  deriving DecidableEq, Repr

/-- The two members `parse_json_offer` reads from `totalPrice` /
`pricePerSquareMeter`; `none` models an absent key. -/
structure PriceObj where
  currency : Option String
  value : Option StrOrNum
  deriving DecidableEq, Repr

/-- One entry of the `images` array; `none` models an absent `large` key. -/
structure ImageObj where
  large : Option String
  deriving DecidableEq, Repr

/-- The slice of one JSON offer that `parse_json_offer` reads.  `id` uses
`Option` because `offer["id"]` raises `KeyError` when absent;
`areaInSquareMeters` is read with `.get(..., 0)`. -/
structure JsonOffer where
  slug : Option String
  images : JsonField (List ImageObj)
  totalPrice : JsonField PriceObj
  pricePerSquareMeter : JsonField PriceObj
  roomsNumber : JsonField String
  areaInSquareMeters : Option ℚ
  id : Option Int
  deriving DecidableEq, Repr

/-- Model of `utils._rooms_translate`: the ONE..TEN word-to-count table. -/
def _rooms_translate (s : String) : Option Nat :=
  match s with
  | "ONE" => some 1
  | "TWO" => some 2
  | "THREE" => some 3
  | "FOUR" => some 4
  | "FIVE" => some 5
  | "SIX" => some 6
  | "SEVEN" => some 7
  | "EIGHT" => some 8
  | "NINE" => some 9
  | "TEN" => some 10
  | _ => none

/-- Python's `round()` (banker's rounding, half to even). -/
def pyRound (q : ℚ) : Int :=
  let f := ⌊q⌋
  let r := q - (f : ℚ)
  if r < 1 / 2 then f
  else if 1 / 2 < r then f + 1
  else if f % 2 = 0 then f else f + 1

/-- The two identical currency blocks of `parse_json_offer` (`offer.py`
lines 29-39 and 41-50): `offer[k]["currency"]` on an absent key raises an
uncaught `KeyError`; on `None` it raises `TypeError`, which the
`except (IndexError, AttributeError, TypeError)` clause turns into the
`-1.0` sentinel; a non-`"PLN"` currency yields `-1.0`; otherwise the value,
passed through `price_to_float` when it is a string. -/
def parse_price_field (field : JsonField PriceObj) : Except PyErr ℚ :=
  match field with
  | .missing => Except.error PyErr.keyError
  | .null => Except.ok (-1)
  | .val tp =>
    match tp.currency with
    | none => Except.error PyErr.keyError
    | some c =>
      if c ≠ "PLN" then Except.ok (-1)
      else
        match tp.value with
        | none => Except.error PyErr.keyError
        | some (.str s) => Except.ok (price_to_float s)
        | some (.num q) => Except.ok q

/-- The `offer["images"][0]["large"]` block of `parse_json_offer` inside
`try/except (IndexError, AttributeError)`: an absent `images` key raises an
uncaught `KeyError`, a `null` value an uncaught `TypeError`, an empty array
the caught `IndexError` (hence `""`), an entry without `large` an uncaught
`KeyError`. -/
def jsonImageUrl (images : JsonField (List ImageObj)) : Except PyErr String :=
  match images with
  | .missing => Except.error PyErr.keyError
  | .null => Except.error PyErr.typeError
  | .val [] => Except.ok ""
  | .val (img :: _) =>
    match img.large with
    | none => Except.error PyErr.keyError
    | some u => Except.ok u

/-- The record `parse_json_offer` returns.  The source spells the key of
the image entry as the variable `image_url` rather than a string literal;
the record value is modelled, the key spelling does not matter for any
claim.  `rooms_label` is `offer.get("roomsNumber", "")` and is `None`
(modelled `none`) when the member is JSON `null`. -/
structure JsonRecord where
  detail_url : String
  offer_id : String
  int_id : Int
  image_url : String
  price : ℚ
  price_int : Int
  size : ℚ
  rooms : Nat
  rooms_label : Option String
  price_per_m2 : ℚ
  calculated_per_m2 : ℚ
  deriving DecidableEq, Repr

/-- Model of `offer.parse_json_offer`. -/
def parse_json_offer (offer : JsonOffer) : Except PyErr JsonRecord := do
  let slug_id := offer.slug.getD ""
  let detail_url := BASE_URL ++ "/" ++ "pl" ++ "/" ++ "oferta" ++ "/" ++ slug_id
  let offer_id := (pySplit slug_id '-').getLastD ""
  let image_url ← jsonImageUrl offer.images
  let price ← parse_price_field offer.totalPrice
  let price_per_m2 ← parse_price_field offer.pricePerSquareMeter
  let roomsPair ← match offer.roomsNumber with
    | .missing => Except.error PyErr.keyError
    | .null => Except.ok ((0 : Nat), (none : Option String))
    | .val s => Except.ok ((_rooms_translate s).getD 0, some s)
  let size := offer.areaInSquareMeters.getD 0
  let int_id ← match offer.id with
    | none => Except.error PyErr.keyError
    | some v => Except.ok v
  Except.ok {
    detail_url := detail_url
    offer_id := offer_id
    int_id := int_id
    image_url := image_url
    price := price
    price_int := pyRound price
    size := size
    rooms := roomsPair.1
    rooms_label := roomsPair.2
    price_per_m2 := price_per_m2
    calculated_per_m2 := if size != 0 then price / size else -1 }

/-! Part: HTML offer extraction (`offer.parse_category_offer`) -/

/-- The `<a>` tag `find("a")` locates in an offer fragment; `href = none`
models an absent attribute (`link.attrs["href"]` raises `KeyError`). -/
structure AnchorTag where
  href : Option String
  deriving DecidableEq, Repr

/-- The `<img>` tag of a fragment: its optional `src` attribute (read with
`.get("src", "")`) and its text. -/
structure ImgTag where
  src : Option String
  text : String
  deriving DecidableEq, Repr

/-- One `<p>` of the fragment's `<article>`: its text and the texts of its
`<span>` children. -/
structure ParaTag where
  text : String
  spans : List String
  deriving DecidableEq, Repr

/-- The `<article>` of a fragment, reduced to what the extractor reads:
its `<p>` children in order.  (The `h3` title is also located in the
source, but its value is computed and then dropped — it is not part of the
returned record — and locating it raises only when the article itself is
absent, which the model covers.) -/
structure ArticleTag where
  paragraphs : List ParaTag
  deriving DecidableEq, Repr

/-- One offer fragment as BeautifulSoup exposes it to
`parse_category_offer`: the results of `find("a")`, `find("img")` and
`find("article")` (`none` = tag absent). -/
structure Fragment where
  anchor : Option AnchorTag
  img : Option ImgTag
  article : Option ArticleTag
  deriving DecidableEq, Repr

/-- The record `parse_category_offer` builds for a fragment with a truthy
detail link.  `size` and `price_per_m2` keep their Python types: the
initial `""` or the parsed number. -/
structure CatOfferRecord where
  detail_url : String
  offer_id : String
  image : String
  price : ℚ
  price_int : Int
  size : StrOrNum
  rooms : String
  price_per_m2 : StrOrNum
  calculated_per_m2 : ℚ
  deriving DecidableEq, Repr

/-- The result of `parse_category_offer`: the empty dict `{}` (the inert
"skip" sentinel) or a full record. -/
inductive CatParsed where
  | empty
  | record (r : CatOfferRecord)
  deriving DecidableEq, Repr

/-- The image expression of `parse_category_offer`:
`image.get("src", "").split(";")[0] or image.text if image else ""`. -/
def catImage (img : Option ImgTag) : String :=
  match img with
  | none => ""
  | some img =>
    let first := ((pySplit (img.src.getD "") ';').headD "")
    if !first.isEmpty then first else img.text

/-- The `try`-guarded details block of `parse_category_offer`
(`data[2]`, its spans): `(rooms, size, per_m2)`, where `none` stands for
the initial `""` kept on the caught `IndexError` or a short span list. -/
def catDetails (data : List ParaTag) : String × Option ℚ × Option ℚ :=
  match data.get? 2 with
  | none => ("", none, none)
  | some p2 =>
    let details := p2.spans
    if 2 < details.length then
      (String.mk ((details.headD "").toList.filter pyIsdigit),
       some (price_to_float (details.getD 1 "")),
       some (price_to_float (details.getD 2 "")))
    else ("", none, none)

/-- The record literal returned by `parse_category_offer` for a truthy
detail link. -/
def mkCatRecord (full_url offer_id image : String) (price : ℚ)
    (det : String × Option ℚ × Option ℚ) : CatOfferRecord := {
  detail_url := full_url
  offer_id := offer_id
  image := image
  price := price
  price_int := pyRound price
  size := match det.2.1 with
    | none => .str ""
    | some q => .num q
  rooms := det.1
  price_per_m2 := match det.2.2 with
    | none => .str ""
    | some q => .num q
  calculated_per_m2 := match det.2.1 with
    | none => -1
    | some q => if q != 0 then price / q else -1 }

/-- Model of `offer.parse_category_offer`.  Raise points, in source order: a
fragment without an `<a>` raises `AttributeError` (`None.attrs`); an
anchor without `href` raises `KeyError`; a falsy (empty) `href` returns
`{}`; a fragment without an `<article>` raises `AttributeError`
(`None.find`); fewer than two `<p>` children raise `IndexError`
(`data[1]`, uncaught); the `data[2]` details access is inside
`try/except IndexError` and degrades to empty `rooms`/`size`/`per_m2`
(`catDetails`). -/
def parse_category_offer (frag : Fragment) : Except PyErr CatParsed :=
  match frag.anchor with
  | none => Except.error PyErr.attributeError
  | some link =>
    match link.href with
    | none => Except.error PyErr.keyError
    | some url =>
      if url.isEmpty then Except.ok CatParsed.empty
      else
        match frag.article with
        | none => Except.error PyErr.attributeError
        | some article =>
          match article.paragraphs.get? 1 with
          | none => Except.error PyErr.indexError
          | some p1 =>
            Except.ok (CatParsed.record (mkCatRecord
              (BASE_URL ++ url) ((pySplit url '-').getLastD "")
              (catImage frag.img) (price_to_float p1.text)
              (catDetails article.paragraphs)))

/-! Part: Page parsing and pagination (`category.py`) -/

/-- One fetched page's markup, reduced to the queries `category.py`
performs on it: the presence of the `no-search-results` div, the
`search.listing` containers (each with its `listing-item-link` anchors,
i.e. offer fragments), and all `listing-item-link` anchors of the whole
page (used when `get_promoted` selects the full page). -/
structure Markup where
  noSearchResultsDiv : Bool
  searchListings : List (List Fragment)
  pageAnchors : List Fragment
  deriving DecidableEq, Repr

/-- Model of `category.was_category_search_successful`: successful iff the
`no-search-results` warning div is absent. -/
def was_category_search_successful (markup : Markup) : Bool :=
  !markup.noSearchResultsDiv

/-- Model of `category.parse_category_content`: pick the listing container (organic
second of two, unless promoted offers are requested; the single one; or
none, yielding `[]`), then extract every fragment in order.  The list
comprehension propagates the first extraction exception, aborting the
whole batch. -/
def parse_category_content (markup : Markup) (get_promoted : Bool := false) :
    Except PyErr (List CatParsed) :=
  let offers? : Option (List Fragment) :=
    if 1 < markup.searchListings.length then
      if !get_promoted then markup.searchListings.get? 1
      else some markup.pageAnchors
    else if markup.searchListings.length = 1 then
      markup.searchListings.get? 0
    else none
  match offers? with
  | none => Except.ok []
  | some offers => offers.mapM parse_category_offer

/-- The external collaborators of `category.get_category`, fixed for one
scrape call: the offer count reported by the site's count query
(`get_number_of_offers`, `-1` on failure) and, for each page number, the
markup the fetch of that page yields. -/
structure FetchEnv where
  realNumOffers : Int
  pages : Nat → Markup

/-- The `while` loop of `category.get_category` (lines 141-158), with
explicit state `(offers, offers_parsed, page, parsed_content)` and a fuel
bound: `none` means the loop has not finished within `fuel` iterations.
The condition parenthesizes as
`offers == 0 or (offers < limit and offers_parsed >= int(offers_per_page))`.
An unsuccessful page returns `[]` immediately, discarding the
accumulator; a parse exception propagates. -/
def get_category_loop (env : FetchEnv) (opp : Nat) (limit : Int) :
    Nat → Nat → Nat → Nat → List CatParsed →
    Option (Except PyErr (List CatParsed))
  | 0, _, _, _, _ => none
  | fuel + 1, offers, offersParsed, page, acc =>
    if offers = 0 ∨ ((offers : Int) < limit ∧ opp ≤ offersParsed) then
      let content := env.pages page
      if !was_category_search_successful content then
        some (Except.ok [])
      else
        match parse_category_content content with
        | .error e => some (Except.error e)
        | .ok parsedPage =>
          get_category_loop env opp limit fuel (offers + parsedPage.length)
            parsedPage.length (page + 1) (acc ++ parsedPage)
    else some (Except.ok acc)

/-- Model of `category.get_category`, from the limit computation on (the region
resolution and URL construction feed only the fetch, which `env`
models).  `offers_per_page` is the source's string parameter after its
`int()` conversion. -/
def get_category (env : FetchEnv) (opp : Nat) (limit0 : Int) (fuel : Nat) :
    Option (Except PyErr (List CatParsed)) :=
  let max_offers : Int := min 12000 env.realNumOffers
  let limit : Int := if limit0 ≠ 0 then min max_offers limit0 else max_offers
  get_category_loop env opp limit fuel 0 opp 1 []

/-! Part: Helper lemmas -/

theorem toList_mk (l : List Char) : (String.mk l).toList = l := rfl

theorem partsValue_false_nonneg (p : Nat × Nat × Nat) :
    0 ≤ partsValue (false, p) := by
  obtain ⟨ip, fp, fl⟩ := p
  show (0 : ℚ) ≤ (ip : ℚ) + (fp : ℚ) / (10 ^ fl : ℚ)
  positivity

/-- Every character that survives `price_to_float`'s filter and the comma
replacement is an ASCII digit or a dot; in particular no sign survives. -/
theorem replaced_filtered_chars (s : String) :
    ∀ c ∈ (pyReplaceCommaDot (priceFiltered s)).toList,
      pyIsdigit c = true ∨ c = '.' := by
  intro c hc
  unfold pyReplaceCommaDot priceFiltered at hc
  rw [toList_mk, toList_mk, List.mem_map] at hc
  obtain ⟨d, hd, rfl⟩ := hc
  rw [List.mem_filter] at hd
  obtain ⟨-, hpred⟩ := hd
  by_cases hcomma : d = ','
  · subst hcomma
    right
    simp
  · rw [Bool.or_eq_true, Bool.or_eq_true, Bool.and_eq_true] at hpred
    rcases hpred with (⟨hdig, -⟩ | heq) | hdot
    · left
      simpa [hcomma] using hdig
    · exact absurd (by simpa using heq) hcomma
    · right
      simp only [beq_iff_eq] at hdot
      simp [hcomma, hdot]

/-! Part: Claim theorems -/

/-- C6: `price_to_float "1 234,50 zł"` is `1234.50`,
`price_to_float "brak ceny"` is `0.0`, and every input from which no
number can be extracted (the modelled `float()` call fails) yields the
default `0.0`; the embedding is a total function, so no exception
escapes. -/
theorem price_to_float_examples_and_default :
    price_to_float "1 234,50 zł" = 1234.50 ∧
    price_to_float "brak ceny" = 0 ∧
    ∀ s : String, extractedNumber s = none → price_to_float s = 0 := by
  refine ⟨?_, ?_, ?_⟩
  · have h : pyFloatParts (pyReplaceCommaDot (priceFiltered "1 234,50 zł")) =
        some (false, 1234, 50, 2) := by decide
    simp [price_to_float, _float, get_number_from_string, pyFloatOfString, h,
      partsValue]
    norm_num
  · have h : pyFloatParts (pyReplaceCommaDot (priceFiltered "brak ceny")) =
        none := by decide
    simp [price_to_float, _float, get_number_from_string, pyFloatOfString, h]
  · intro s h
    unfold extractedNumber at h
    simp [price_to_float, _float, get_number_from_string, h]

/-- Witness for C6's defaulting clause at a concrete extraction-free
input. -/
theorem price_to_float_examples_and_default_witness :
    extractedNumber "cena: brak!" = none ∧ price_to_float "cena: brak!" = 0 :=
  ⟨by decide,
   price_to_float_examples_and_default.2.2 "cena: brak!" (by decide)⟩

/-- C10: `price_to_float` is total (modelled as a total function whose
only fallible step, `float()`, is caught and defaulted) and its value is
never negative: the character filter keeps only digits, commas and dots,
so no minus sign reaches the number parser. -/
theorem price_to_float_nonneg (s : String) : 0 ≤ price_to_float s := by
  unfold price_to_float _float get_number_from_string
  split
  · rename_i q heq
    unfold pyFloatOfString pyFloatParts at heq
    split at heq
    · rename_i rest htl
      exfalso
      have hm := replaced_filtered_chars s '-' (by rw [htl]; exact List.mem_cons_self _ _)
      rcases hm with hm | hm
      · simp [pyIsdigit] at hm
      · exact absurd hm (by decide)
    · rename_i rest htl
      rw [Option.map_map, Option.map_eq_some'] at heq
      obtain ⟨p, -, hv⟩ := heq
      rw [← hv]
      exact partsValue_false_nonneg p
    · rename_i htl1 htl2
      rw [Option.map_map, Option.map_eq_some'] at heq
      obtain ⟨p, -, hv⟩ := heq
      rw [← hv]
      exact partsValue_false_nonneg p
  · rename_i heq
    exact le_refl 0

/-- C4 counterexample: a sequence-valued filter key is *not*
percent-encoded: for the key `"a b"` the built URL carries the entry
`a b=[x,y]` verbatim, while percent-encoding the key would give
`a%20b=[x,y]`. -/
theorem get_url_seq_key_unquoted_counterexample :
    get_url "mieszkanie" "wynajem" ⟨"r-1", none, none⟩ "24" "1"
      [("a b", FilterVal.seq ["x", "y"])] =
      Except.ok
        "https://www.otodom.pl/pl/oferty/mieszkanie/wynajem/r-1?limit=24&page=1&a b=[x,y]" ∧
    quote "a b" = "a%20b" ∧
    "https://www.otodom.pl/pl/oferty/mieszkanie/wynajem/r-1?limit=24&page=1&a b=[x,y]" ≠
      "https://www.otodom.pl/pl/oferty/mieszkanie/wynajem/r-1?limit=24&page=1&a%20b=[x,y]" :=
  ⟨by decide, by decide, by decide⟩

/-- C4 (amended): `get_url` serializes every sequence-valued filter
entry as `key=[v1,v2,...]` with the key taken verbatim (not
percent-encoded) and the values comma-joined in input order without URL
escaping, and every scalar entry as `quote(key)=value` with the value
verbatim — only scalar keys are percent-encoded.  Stated for a region
without extra id entries and filters without the two path-affecting
keys. -/
theorem get_url_filter_serialization (mc dc rid lim pg : String)
    (filters : List (String × FilterVal))
    (hbt : dictFind filters "building_type" = none)
    (hdf : dictFind filters "description_fragment" = none) :
    get_url mc dc ⟨rid, none, none⟩ lim pg filters =
      Except.ok (BASE_URL ++ "/" ++ "pl" ++ "/" ++ "oferty" ++ "/" ++ mc ++
        "/" ++ dc ++ "/" ++ rid ++ "?limit=" ++ lim ++ "&page=" ++ pg ++
        "&" ++ String.intercalate "&" (filters.map (fun kv =>
          match kv with
          | (key, FilterVal.seq vs) =>
              key ++ "=[" ++ String.intercalate "," vs ++ "]"
          | (key, FilterVal.scalar v) => quote key ++ "=" ++ v))) := by
  have hfe : (filter_entry : String × FilterVal → String) =
      (fun kv => match kv with
        | (key, FilterVal.seq vs) =>
            key ++ "=[" ++ String.intercalate "," vs ++ "]"
        | (key, FilterVal.scalar v) => quote key ++ "=" ++ v) := by
    funext kv
    obtain ⟨k, v⟩ := kv
    cases v <;> rfl
  simp only [get_url, hbt, hdf, hfe, bind, Except.bind]

/-- Witness for C4's amended serialization theorem at concrete inputs. -/
theorem get_url_filter_serialization_witness :
    get_url "mieszkanie" "sprzedaz" ⟨"r-7", none, none⟩ "24" "2"
      [("roomsNumber", FilterVal.seq ["TWO", "THREE"]),
       ("market", FilterVal.scalar "SECONDARY")] =
      Except.ok
        "https://www.otodom.pl/pl/oferty/mieszkanie/sprzedaz/r-7?limit=24&page=2&roomsNumber=[TWO,THREE]&market=SECONDARY" := by
  have h := get_url_filter_serialization "mieszkanie" "sprzedaz" "r-7" "24"
    "2" [("roomsNumber", FilterVal.seq ["TWO", "THREE"]),
         ("market", FilterVal.scalar "SECONDARY")] (by decide) (by decide)
  rw [h]
  decide

/-- C9: a fetched lightweight page without a `buildManifest.js` script
reference makes `find` return `None`; `None.attrs` raises
`AttributeError`, which the `except (IndexError, TypeError)` clause does
*not* catch, so `get_json_url` propagates the exception instead of
returning `None`. -/
theorem get_json_url_missing_manifest_raises :
    get_json_url "mieszkanie" "wynajem" ⟨"r-1", none, none⟩ "24" "1" []
        ⟨none⟩ = Except.error PyErr.attributeError ∧
    (Except.error PyErr.attributeError ≠
      (Except.ok none : Except PyErr (Option String))) :=
  ⟨by decide, by decide⟩

/-- If `parse_json_offer` succeeds, its price fields are the outcomes of
the two currency blocks, its size is `areaInSquareMeters` (default `0`),
and `calculated_per_m2` is `price / size` for non-zero size and `-1.0`
otherwise. -/
theorem parse_json_offer_fields (o : JsonOffer) (r : JsonRecord)
    (hok : parse_json_offer o = Except.ok r) :
    parse_price_field o.totalPrice = Except.ok r.price ∧
    parse_price_field o.pricePerSquareMeter = Except.ok r.price_per_m2 ∧
    r.size = o.areaInSquareMeters.getD 0 ∧
    r.calculated_per_m2 = (if r.size != 0 then r.price / r.size else -1) := by
  unfold parse_json_offer at hok
  simp only [bind, Except.bind] at hok
  repeat' split at hok
  all_goals try exact absurd hok (fun h => Except.noConfusion h)
  all_goals obtain rfl := Except.ok.inj hok
  all_goals refine ⟨by assumption, by assumption, rfl, ?_⟩
  all_goals simp_all

/-- C8: whenever `parse_json_offer` succeeds on an offer whose
`totalPrice` currency is not `"PLN"`, the record's `price` is the sentinel
`-1.0`; likewise `price_per_m2` for a non-`"PLN"`
`pricePerSquareMeter`. -/
theorem parse_json_offer_foreign_currency (o : JsonOffer) (r : JsonRecord)
    (hok : parse_json_offer o = Except.ok r) :
    (∀ tp, o.totalPrice = JsonField.val tp → ∀ c, tp.currency = some c →
      c ≠ "PLN" → r.price = -1) ∧
    (∀ pp, o.pricePerSquareMeter = JsonField.val pp →
      ∀ c, pp.currency = some c → c ≠ "PLN" → r.price_per_m2 = -1) := by
  obtain ⟨h1, h2, -, -⟩ := parse_json_offer_fields o r hok
  constructor
  · rintro tp htp c hc hne
    rw [htp] at h1
    simp only [parse_price_field, hc] at h1
    rw [if_pos hne] at h1
    exact (Except.ok.inj h1).symm
  · rintro pp hpp c hc hne
    rw [hpp] at h2
    simp only [parse_price_field, hc] at h2
    rw [if_pos hne] at h2
    exact (Except.ok.inj h2).symm

/-- Witness for C8 at a concrete EUR-priced offer. -/
theorem parse_json_offer_foreign_currency_witness :
    (parse_json_offer ⟨some "x-5", JsonField.val [],
        JsonField.val ⟨some "EUR", some (StrOrNum.num 400000)⟩,
        JsonField.val ⟨some "EUR", some (StrOrNum.num 8000)⟩,
        JsonField.val "TWO", some 50, some 5⟩).map
      (fun r => (r.price, r.price_per_m2)) = Except.ok (-1, -1) := by
  cases hok : parse_json_offer ⟨some "x-5", JsonField.val [],
      JsonField.val ⟨some "EUR", some (StrOrNum.num 400000)⟩,
      JsonField.val ⟨some "EUR", some (StrOrNum.num 8000)⟩,
      JsonField.val "TWO", some 50, some 5⟩ with
  | error e =>
    exfalso
    have hIsOk : (parse_json_offer ⟨some "x-5", JsonField.val [],
        JsonField.val ⟨some "EUR", some (StrOrNum.num 400000)⟩,
        JsonField.val ⟨some "EUR", some (StrOrNum.num 8000)⟩,
        JsonField.val "TWO", some 50, some 5⟩).isOk = true := by decide
    rw [hok] at hIsOk
    exact Bool.noConfusion hIsOk
  | ok r =>
    have h := parse_json_offer_foreign_currency _ r hok
    have hp := h.1 ⟨some "EUR", some (StrOrNum.num 400000)⟩ rfl "EUR" rfl
      (by decide)
    have hpm := h.2 ⟨some "EUR", some (StrOrNum.num 8000)⟩ rfl "EUR" rfl
      (by decide)
    simp [Except.map, hp, hpm]

/-- In the record literal of the HTML extractor, `calculated_per_m2` is
`price / size` for a numeric non-zero size and `-1` when the size is falsy
(the initial `""` or `0`). -/
theorem mkCatRecord_calculated (u i im : String) (price : ℚ)
    (det : String × Option ℚ × Option ℚ) :
    (∀ q, (mkCatRecord u i im price det).size = StrOrNum.num q → q ≠ 0 →
      (mkCatRecord u i im price det).calculated_per_m2 =
        (mkCatRecord u i im price det).price / q) ∧
    ((mkCatRecord u i im price det).size.truthy = false →
      (mkCatRecord u i im price det).calculated_per_m2 = -1) := by
  obtain ⟨ro, sz, pm⟩ := det
  rcases sz with _ | q'
  · refine ⟨fun q hq hne => ?_, fun _ => rfl⟩
    exact absurd hq (by simp [mkCatRecord])
  · constructor
    · intro q hq hne
      have hq' : q' = q := by simpa [mkCatRecord] using hq
      subst hq'
      simp [mkCatRecord, hne]
    · intro htr
      have h0 : q' = 0 := by
        simpa [mkCatRecord, StrOrNum.truthy] using htr
      subst h0
      simp [mkCatRecord]

/-- If `parse_category_offer` yields a full record, its
`calculated_per_m2` is `price / size` for a numeric non-zero size and the
sentinel `-1` when the size is falsy (the initial `""` or `0`). -/
theorem parse_category_offer_calculated (frag : Fragment) (r : CatOfferRecord)
    (hok : parse_category_offer frag = Except.ok (CatParsed.record r)) :
    (∀ q, r.size = StrOrNum.num q → q ≠ 0 →
      r.calculated_per_m2 = r.price / q) ∧
    (r.size.truthy = false → r.calculated_per_m2 = -1) := by
  unfold parse_category_offer at hok
  repeat' split at hok
  all_goals try exact absurd hok (fun h => Except.noConfusion h)
  all_goals try exact CatParsed.noConfusion (Except.ok.inj hok)
  all_goals obtain rfl := CatParsed.record.inj (Except.ok.inj hok)
  all_goals exact mkCatRecord_calculated _ _ _ _ _

/-- C7 counterexample: at size-falsy inputs the HTML extractor and the
JSON extractor both produce the sentinel `-1` for `calculated_per_m2` —
neither yields `0.0`, so the two variants do not disagree. -/
theorem calculated_per_m2_sentinels_counterexample :
    (parse_category_offer ⟨some ⟨some "/oferta/x-9"⟩, none,
        some ⟨[⟨"t", []⟩, ⟨"brak", []⟩]⟩⟩).map
      (fun p => match p with
        | CatParsed.record r => some (r.size, r.calculated_per_m2)
        | CatParsed.empty => none) =
      Except.ok (some (StrOrNum.str "", -1)) ∧
    (parse_json_offer ⟨some "x-1", JsonField.val [],
        JsonField.val ⟨some "PLN", some (StrOrNum.num 100)⟩,
        JsonField.val ⟨some "PLN", some (StrOrNum.num 10)⟩,
        JsonField.val "TWO", some 0, some 1⟩).map
      (fun r => (r.size, r.calculated_per_m2)) = Except.ok (0, -1) ∧
    (-1 : ℚ) ≠ 0 :=
  ⟨by decide, by decide, by decide⟩

/-- C7 (amended): in every successfully extracted record,
`calculated_per_m2` equals `price / size` whenever `size` is truthy
(non-zero / non-empty); when `size` is falsy, the HTML extractor and the
JSON extractor use the *same* sentinel `-1` (the HTML variant writes the
integer `-1`, the JSON variant the float `-1.0`; neither yields
`0.0`). -/
theorem calculated_per_m2_policy (frag : Fragment) (rh : CatOfferRecord)
    (hH : parse_category_offer frag = Except.ok (CatParsed.record rh))
    (o : JsonOffer) (rj : JsonRecord)
    (hJ : parse_json_offer o = Except.ok rj) :
    ((∀ q, rh.size = StrOrNum.num q → q ≠ 0 →
        rh.calculated_per_m2 = rh.price / q) ∧
      (rh.size.truthy = false → rh.calculated_per_m2 = -1)) ∧
    ((rj.size ≠ 0 → rj.calculated_per_m2 = rj.price / rj.size) ∧
      (rj.size = 0 → rj.calculated_per_m2 = -1)) := by
  refine ⟨parse_category_offer_calculated frag rh hH, ?_, ?_⟩
  · intro hne
    obtain ⟨-, -, -, hc⟩ := parse_json_offer_fields o rj hJ
    rw [hc, if_pos (by simpa using hne)]
  · intro h0
    obtain ⟨-, -, -, hc⟩ := parse_json_offer_fields o rj hJ
    rw [hc, if_neg (by simp [h0])]

/-- Witness for C7's amended policy at concrete size-falsy inputs. -/
theorem calculated_per_m2_policy_witness :
    (parse_category_offer ⟨some ⟨some "/oferta/w-3"⟩, none,
        some ⟨[⟨"h", []⟩, ⟨"cena", []⟩]⟩⟩).map
      (fun p => match p with
        | CatParsed.record r => some r.calculated_per_m2
        | CatParsed.empty => none) = Except.ok (some (-1)) ∧
    (parse_json_offer ⟨some "w-4", JsonField.val [],
        JsonField.val ⟨some "PLN", some (StrOrNum.num 7)⟩,
        JsonField.val ⟨some "PLN", some (StrOrNum.num 7)⟩,
        JsonField.val "ONE", some 0, some 4⟩).map
      (fun r => r.calculated_per_m2) = Except.ok (-1) := by
  cases hokH : parse_category_offer ⟨some ⟨some "/oferta/w-3"⟩, none,
      some ⟨[⟨"h", []⟩, ⟨"cena", []⟩]⟩⟩ with
  | error e =>
    exfalso
    have hIsOk : (parse_category_offer ⟨some ⟨some "/oferta/w-3"⟩, none,
        some ⟨[⟨"h", []⟩, ⟨"cena", []⟩]⟩⟩).isOk = true := by decide
    rw [hokH] at hIsOk
    exact Bool.noConfusion hIsOk
  | ok p =>
    cases p with
    | empty =>
      exfalso
      have hproj : (parse_category_offer ⟨some ⟨some "/oferta/w-3"⟩, none,
          some ⟨[⟨"h", []⟩, ⟨"cena", []⟩]⟩⟩).map
        (fun p => match p with
          | CatParsed.record _ => true
          | CatParsed.empty => false) = Except.ok true := by decide
      rw [hokH] at hproj
      simp [Except.map] at hproj
    | record rh =>
      cases hokJ : parse_json_offer ⟨some "w-4", JsonField.val [],
          JsonField.val ⟨some "PLN", some (StrOrNum.num 7)⟩,
          JsonField.val ⟨some "PLN", some (StrOrNum.num 7)⟩,
          JsonField.val "ONE", some 0, some 4⟩ with
      | error e =>
        exfalso
        have hIsOk : (parse_json_offer ⟨some "w-4", JsonField.val [],
            JsonField.val ⟨some "PLN", some (StrOrNum.num 7)⟩,
            JsonField.val ⟨some "PLN", some (StrOrNum.num 7)⟩,
            JsonField.val "ONE", some 0, some 4⟩).isOk = true := by decide
        rw [hokJ] at hIsOk
        exact Bool.noConfusion hIsOk
      | ok rj =>
        have thm := calculated_per_m2_policy _ rh hokH _ rj hokJ
        have hsizeH : rh.size = StrOrNum.str "" := by
          have hproj : (parse_category_offer ⟨some ⟨some "/oferta/w-3"⟩,
              none, some ⟨[⟨"h", []⟩, ⟨"cena", []⟩]⟩⟩).map
            (fun p => match p with
              | CatParsed.record r => some r.size
              | CatParsed.empty => none) =
            Except.ok (some (StrOrNum.str "")) := by decide
          rw [hokH] at hproj
          simpa [Except.map] using hproj
        have hsizeJ : rj.size = 0 := by
          have hproj : (parse_json_offer ⟨some "w-4", JsonField.val [],
              JsonField.val ⟨some "PLN", some (StrOrNum.num 7)⟩,
              JsonField.val ⟨some "PLN", some (StrOrNum.num 7)⟩,
              JsonField.val "ONE", some 0, some 4⟩).map
            (fun r => r.size) = Except.ok 0 := by decide
          rw [hokJ] at hproj
          simpa [Except.map] using hproj
        have hcH := thm.1.2 (by rw [hsizeH]; rfl)
        have hcJ := thm.2.2 hsizeJ
        exact ⟨by simp [Except.map, hcH], by simp [Except.map, hcJ]⟩

/-- C5 counterexample: a fragment whose anchor lacks the `href`
attribute makes `link.attrs["href"]` raise `KeyError`; `parse_category_offer`
raises instead of returning the empty record. -/
theorem parse_category_offer_missing_href_counterexample :
    parse_category_offer ⟨some ⟨none⟩, none, some ⟨[]⟩⟩ =
      Except.error PyErr.keyError ∧
    (Except.error PyErr.keyError ≠
      (Except.ok CatParsed.empty : Except PyErr CatParsed)) :=
  ⟨by decide, by decide⟩

/-- C5 (amended): `parse_category_offer` returns the empty record `{}`
exactly for a present-but-falsy (empty-string) anchor `href`; a fragment
without an anchor raises `AttributeError`, and an anchor without the
`href` attribute raises `KeyError`, instead of yielding `{}`. -/
theorem parse_category_offer_empty_href (frag : Fragment) :
    (∀ a, frag.anchor = some a → a.href = some "" →
      parse_category_offer frag = Except.ok CatParsed.empty) ∧
    (frag.anchor = none →
      parse_category_offer frag = Except.error PyErr.attributeError) ∧
    (∀ a, frag.anchor = some a → a.href = none →
      parse_category_offer frag = Except.error PyErr.keyError) := by
  refine ⟨?_, ?_, ?_⟩
  · intro a ha hh
    simp only [parse_category_offer, ha, hh]
    rw [if_pos (show ("" : String).isEmpty = true by decide)]
  · intro ha
    simp [parse_category_offer, ha]
  · intro a ha hh
    simp [parse_category_offer, ha, hh]

/-- Witness for C5's amended theorem at concrete fragments. -/
theorem parse_category_offer_empty_href_witness :
    parse_category_offer ⟨some ⟨some ""⟩, none, none⟩ =
      Except.ok CatParsed.empty ∧
    parse_category_offer ⟨none, none, none⟩ =
      Except.error PyErr.attributeError ∧
    parse_category_offer ⟨some ⟨none⟩, none, none⟩ =
      Except.error PyErr.keyError :=
  ⟨(parse_category_offer_empty_href _).1 ⟨some ""⟩ rfl rfl,
   (parse_category_offer_empty_href _).2.1 rfl,
   (parse_category_offer_empty_href _).2.2 ⟨none⟩ rfl rfl⟩

/-- An `isOk` exception value is an `ok`. -/
theorem except_isOk_exists {ε α : Type} (x : Except ε α)
    (h : x.isOk = true) : ∃ v, x = Except.ok v := by
  cases x with
  | error e => exact absurd h (by simp [Except.isOk, Except.toBool])
  | ok v => exact ⟨v, rfl⟩

/-- The list comprehension of `parse_category_content` propagates the
first fragment exception, discarding every other fragment's record. -/
theorem mapM_append_error (l1 l2 : List Fragment) (f : Fragment) (e : PyErr)
    (hpre : ∀ g ∈ l1, (parse_category_offer g).isOk = true)
    (hf : parse_category_offer f = Except.error e) :
    (l1 ++ f :: l2).mapM parse_category_offer = Except.error e := by
  induction l1 with
  | nil =>
    rw [List.nil_append, List.mapM_cons, hf]
    rfl
  | cons g gs ih =>
    obtain ⟨v, hv⟩ :=
      except_isOk_exists _ (hpre g (List.mem_cons_self g gs))
    have hrest := ih (fun g' hg' => hpre g' (List.mem_cons_of_mem _ hg'))
    rw [List.cons_append, List.mapM_cons, hv]
    simp only [hrest, bind, Except.bind]

/-- C1 counterexample: one malformed fragment (anchor without `href`)
aborts the whole batch of `parse_category_content` with `KeyError`, losing
the other, well-formed fragment on the same page. -/
theorem parse_category_content_abort_counterexample :
    parse_category_content ⟨false, [[⟨some ⟨some "/oferta/a-1"⟩, none,
        some ⟨[⟨"t", []⟩, ⟨"cena", []⟩]⟩⟩,
      ⟨some ⟨none⟩, none, none⟩]], []⟩ false =
      Except.error PyErr.keyError ∧
    (parse_category_offer ⟨some ⟨some "/oferta/a-1"⟩, none,
        some ⟨[⟨"t", []⟩, ⟨"cena", []⟩]⟩⟩).isOk = true :=
  ⟨by decide, by decide⟩

/-- C1 (amended): recovery is only partial.  A fragment with a
non-empty anchor `href` and an article with at least two paragraphs is
extracted without exception — missing details (third paragraph / its
spans) only degrade the record.  But a fragment missing the `href`
attribute, the article, or the second paragraph raises, and the exception
aborts `parse_category_content`'s whole batch, losing the well-formed
fragments of the page. -/
theorem parse_category_offer_recovery :
    (∀ (frag : Fragment) (a : AnchorTag) (u : String) (art : ArticleTag),
      frag.anchor = some a → a.href = some u → u.isEmpty = false →
      frag.article = some art → 2 ≤ art.paragraphs.length →
      ∃ r, parse_category_offer frag = Except.ok (CatParsed.record r)) ∧
    (∀ (l1 l2 : List Fragment) (f : Fragment) (e : PyErr),
      (∀ g ∈ l1, (parse_category_offer g).isOk = true) →
      parse_category_offer f = Except.error e →
      parse_category_content ⟨false, [l1 ++ f :: l2], []⟩ false =
        Except.error e) := by
  constructor
  · intro frag a u art ha hh hne hart hlen
    simp only [parse_category_offer, ha, hh, hart]
    rw [if_neg (by simp [hne])]
    rw [List.get?_eq_get (show 1 < art.paragraphs.length by omega)]
    exact ⟨_, rfl⟩
  · intro l1 l2 f e hpre hf
    have hcontent : parse_category_content ⟨false, [l1 ++ f :: l2], []⟩
        false = (l1 ++ f :: l2).mapM parse_category_offer := by
      simp [parse_category_content]
    rw [hcontent]
    exact mapM_append_error l1 l2 f e hpre hf

/-- Witness for C1's amended theorem: a details-free fragment parses, and
a bad fragment aborts a concrete batch. -/
theorem parse_category_offer_recovery_witness :
    (parse_category_offer ⟨some ⟨some "/oferta/b-2"⟩, none,
        some ⟨[⟨"x", []⟩, ⟨"y", []⟩]⟩⟩).isOk = true ∧
    parse_category_content ⟨false, [[⟨some ⟨some "/oferta/b-2"⟩, none,
        some ⟨[⟨"x", []⟩, ⟨"y", []⟩]⟩⟩, ⟨none, none, none⟩]], []⟩ false =
      Except.error PyErr.attributeError := by
  constructor
  · obtain ⟨r, hr⟩ := parse_category_offer_recovery.1
      ⟨some ⟨some "/oferta/b-2"⟩, none, some ⟨[⟨"x", []⟩, ⟨"y", []⟩]⟩⟩
      ⟨some "/oferta/b-2"⟩ "/oferta/b-2" ⟨[⟨"x", []⟩, ⟨"y", []⟩]⟩
      rfl rfl (by decide) rfl (by decide)
    rw [hr]
    rfl
  · refine parse_category_offer_recovery.2
      [⟨some ⟨some "/oferta/b-2"⟩, none, some ⟨[⟨"x", []⟩, ⟨"y", []⟩]⟩⟩]
      [] ⟨none, none, none⟩ PyErr.attributeError ?_ (by decide)
    intro g hg
    rw [List.mem_singleton] at hg
    subst hg
    decide

/-- C3: whenever the loop fetches a page whose success check fails
(the `no-search-results` marker is present), `get_category` returns `[]`
at once, discarding everything accumulated from earlier pages; in
particular when the very first page's check fails. -/
theorem get_category_unsuccessful_empty :
    (∀ (env : FetchEnv) (opp : Nat) (limit : Int)
       (fuel offers op page : Nat) (acc : List CatParsed),
      (offers = 0 ∨ ((offers : Int) < limit ∧ opp ≤ op)) →
      was_category_search_successful (env.pages page) = false →
      get_category_loop env opp limit (fuel + 1) offers op page acc =
        some (Except.ok [])) ∧
    (∀ (env : FetchEnv) (opp : Nat) (limit0 : Int) (fuel : Nat),
      was_category_search_successful (env.pages 1) = false →
      get_category env opp limit0 (fuel + 1) = some (Except.ok [])) := by
  constructor
  · intro env opp limit fuel offers op page acc hcond hfail
    unfold get_category_loop
    rw [if_pos hcond]
    simp [hfail]
  · intro env opp limit0 fuel hfail
    unfold get_category get_category_loop
    rw [if_pos (Or.inl rfl)]
    simp [hfail]

/-- Witness for C3 with a concrete environment whose pages all carry the
`no-search-results` marker. -/
theorem get_category_unsuccessful_empty_witness :
    get_category ⟨250, fun _ => ⟨true, [], []⟩⟩ 24 0 5 =
      some (Except.ok []) :=
  get_category_unsuccessful_empty.2 ⟨250, fun _ => ⟨true, [], []⟩⟩ 24 0 4 rfl

/-- With every page successful but carrying no listing container (zero
offers parsed), the accumulated count stays `0`, the disjunct
`offers == 0` of the loop condition stays true, and the loop never
finishes, whatever the fuel. -/
theorem get_category_loop_zero_offers_none (limit : Int) (opp : Nat) :
    ∀ (fuel op page : Nat) (acc : List CatParsed),
      get_category_loop ⟨250, fun _ => ⟨false, [], []⟩⟩ opp limit fuel 0 op
        page acc = none := by
  intro fuel
  induction fuel with
  | zero => intro op page acc; rfl
  | succ n ih =>
    intro op page acc
    exact ih 0 (page + 1) (acc ++ [])

/-- C2: with `offers_per_page = 24`, a reported total of `250` and a
requested limit of `100`, an environment whose every page is successful
but yields zero parsed offers makes `get_category` loop forever — for
every fuel bound the loop is still running — because the `offers == 0`
disjunct of the `while` condition retriggers on a zero accumulation.  The
claim's promised termination on a short (zero-offer) page fails. -/
theorem get_category_zero_offer_page_loops_forever (fuel : Nat) :
    get_category ⟨250, fun _ => ⟨false, [], []⟩⟩ 24 100 fuel = none := by
  unfold get_category
  exact get_category_loop_zero_offers_none _ 24 fuel 24 1 []

end Pyotodom
